import Mathlib

/-!
Verification development for the legal-intelligence RAG agent.

Shallow embedding of the deterministic core of the repository:
the feedback store (rag_agent/feedback.py), the precedent retriever
(rag_agent/retriever.py) and the deterministic orchestration helpers
(rag_agent/agent.py).  Python floats are modelled as exact rationals,
Python strings as Lean strings processed as lists of characters
(the corpus and all fixed vocabularies are ASCII, so the ASCII-only
Char.toLower coincides with the Python lower method on all data the
program handles).  The neural sentence-embedding model is opaque, so
cosine similarities enter the embedding as an explicit list, one entry
per document, exactly as the similarity array sims does in the source.
-/

/-- Python substring test helper: does the first character list occur at the
head of the second one. -/
def hasPrefixChars : List Char → List Char → Bool
  | [], _ => true
  | _ :: _, [] => false
  | a :: as, b :: bs => a == b && hasPrefixChars as bs

/-- Python substring containment (the in operator on str) on character
lists: the needle occurs contiguously somewhere in the haystack. -/
def substrOfChars : List Char → List Char → Bool
  | n, [] => hasPrefixChars n []
  | n, c :: t => hasPrefixChars n (c :: t) || substrOfChars n t

/-- Python substring containment on strings. -/
def substrOf (needle hay : String) : Bool :=
  substrOfChars needle.toList hay.toList

/-- Python str.lower, restricted to ASCII as explained in the header. -/
def pyLower (s : String) : String :=
  String.mk (s.toList.map Char.toLower)

/-- Lexicographic less-or-equal on character lists by code point, the
order Python uses to compare strings. -/
def lexLeChars : List Char → List Char → Bool
  | [], _ => true
  | _ :: _, [] => false
  | a :: as, b :: bs => if a = b then lexLeChars as bs else decide (a.toNat < b.toNat)

/-- Python string less-or-equal as a proposition, used to model sorted(). -/
def pyStrLe (a b : String) : Prop :=
  lexLeChars a.toList b.toList = true

instance : DecidableRel pyStrLe := fun a b => by
  unfold pyStrLe
  infer_instance

/-- Python sorted() on a list of strings. -/
def sortStrings (l : List String) : List String :=
  List.insertionSort pyStrLe l

/-- Python de-duplication idiom list(dict.fromkeys(l)): keep the first
occurrence of every element, preserving order.  Auxiliary version carrying
the set of elements already seen. -/
def dedupFirstAux : List String → List String → List String
  | _, [] => []
  | seen, s :: rest =>
    if s ∈ seen then dedupFirstAux seen rest else s :: dedupFirstAux (s :: seen) rest

/-- Python list(dict.fromkeys(l)). -/
def dedupFirst (l : List String) : List String :=
  dedupFirstAux [] l

/-- Lookup in a Python dict of floats modelled as an association list,
with the default value 0.0 used by boosts.get(did, 0.0). -/
def dictGet : List (String × ℚ) → String → ℚ
  | [], _ => 0
  | p :: rest, k => if p.1 = k then p.2 else dictGet rest k

/-- Update or insert in a Python dict modelled as an association list:
an existing key keeps its position, a new key is appended at the end,
which is exactly the Python dict insertion-order semantics. -/
def dictSet : List (String × ℚ) → String → ℚ → List (String × ℚ)
  | [], k, v => [(k, v)]
  | p :: rest, k, v => if p.1 = k then (k, v) :: rest else p :: dictSet rest k v

/-- Round-half-to-even on a rational, the tie-breaking rule of the Python
built-in round. -/
def roundHalfEven (q : ℚ) : ℤ :=
  if q - (⌊q⌋ : ℚ) < 1/2 then ⌊q⌋
  else if 1/2 < q - (⌊q⌋ : ℚ) then ⌊q⌋ + 1
  else if ⌊q⌋ % 2 = 0 then ⌊q⌋ else ⌊q⌋ + 1

/-- Python round(q, 4): round to four decimal places.  On the exact
multiples of 0.0001 produced by the feedback store this agrees with the
float behaviour of the source. -/
def round4 (q : ℚ) : ℚ :=
  (roundHalfEven (q * 10000) : ℚ) / 10000

/-- Feedback state persisted by rag_agent/feedback.py: three saturating
style counters, per-document ranking boosts, and the free-text note of the
last submission. -/
structure FeedbackState where
  style_bullets : ℤ
  style_citations : ℤ
  emphasis_proportionality : ℤ
  doc_boosts : List (String × ℚ)
  last_notes : Option String
deriving DecidableEq

/-- DEFAULT_FEEDBACK of rag_agent/feedback.py. -/
def DEFAULT_FEEDBACK : FeedbackState :=
  { style_bullets := 0
    style_citations := 1
    emphasis_proportionality := 1
    doc_boosts := []
    last_notes := none }

/-- Pure state transition of record_feedback in rag_agent/feedback.py:
the code loads the state, applies exactly this update, then best-effort
persists it and returns the updated dict.  Lines 55-79 of the source. -/
def record_feedback (thumbs_up : Bool) (used_doc_ids : List String)
    (notes : String) (data : FeedbackState) : FeedbackState :=
  let data1 :=
    if thumbs_up then
      { data with
        style_citations := min 2 (data.style_citations + 1)
        emphasis_proportionality := min 2 (data.emphasis_proportionality + 1) }
    else
      { data with style_bullets := min 2 (data.style_bullets + 1) }
  let delta : ℚ := if thumbs_up then 1/50 else -(1/50)
  let boosts := used_doc_ids.foldl
    (fun b did => dictSet b did (round4 (max (-(1/5)) (min (1/5) (dictGet b did + delta)))))
    data1.doc_boosts
  let data2 := { data1 with doc_boosts := boosts }
  if notes ≠ "" then { data2 with last_notes := some notes } else data2

/-- Fold a sequence of feedback events (thumb direction together with the
used document ids) through record_feedback. -/
def applyEvents (events : List (Bool × List String)) (s : FeedbackState) : FeedbackState :=
  events.foldl (fun st e => record_feedback e.1 e.2 "" st) s

/-- Specification-side single-document boost recurrence: add the signed
delta, clip to the boost interval, round to four decimals.  Matches the
wording of the spec sentence about mixed thumb sequences. -/
def boostStep (acc : ℚ) (b : Bool) : ℚ :=
  round4 (max (-(1/5)) (min (1/5) (acc + (if b then (1/50 : ℚ) else -(1/50)))))

/-- Specification-side clipped running sum of a thumb sequence, starting
from a zero boost. -/
def clippedSum (ups : List Bool) : ℚ :=
  ups.foldl boostStep 0

/-- Invariant of the feedback store claimed by the spec: every stored
boost lies in the closed interval from -0.2 to 0.2 and every style
counter lies between 0 and 2. -/
def FeedbackInv (s : FeedbackState) : Prop :=
  (∀ p ∈ s.doc_boosts, -(1/5) ≤ p.2 ∧ p.2 ≤ 1/5) ∧
  0 ≤ s.style_bullets ∧ s.style_bullets ≤ 2 ∧
  0 ≤ s.style_citations ∧ s.style_citations ≤ 2 ∧
  0 ≤ s.emphasis_proportionality ∧ s.emphasis_proportionality ≤ 2

instance (s : FeedbackState) : Decidable (FeedbackInv s) := by
  unfold FeedbackInv
  infer_instance

/-- Content of the persisted feedback JSON file as parsed by json.load:
any of the four default keys may be missing, since _load re-installs them
with data.setdefault. -/
structure RawFeedback where
  style_bullets : Option ℤ
  style_citations : Option ℤ
  emphasis_proportionality : Option ℤ
  doc_boosts : Option (List (String × ℚ))
  last_notes : Option String
deriving DecidableEq

/-- Outcome of trying to read and parse the feedback file, the three
failure shapes being the ones the spec names: missing file, an I/O error
while reading, and a JSON parse failure.  Exceptions of the source are
modelled as explicit constructors so that totality of _load expresses
that no exception propagates. -/
inductive FileState
  | absent
  | readFailure
  | parseFailure
  | content (raw : RawFeedback)
deriving DecidableEq

/-- Outcome of trying to write the feedback file. -/
inductive WriteState
  | writable
  | failing
deriving DecidableEq

/-- The data.setdefault(k, v) loop of _load: fill every missing key with
its DEFAULT_FEEDBACK value. -/
def applyDefaults (raw : RawFeedback) : FeedbackState :=
  { style_bullets := raw.style_bullets.getD 0
    style_citations := raw.style_citations.getD 1
    emphasis_proportionality := raw.emphasis_proportionality.getD 1
    doc_boosts := raw.doc_boosts.getD []
    last_notes := raw.last_notes }

/-- Embedding of _load in rag_agent/feedback.py, lines 18-28: a missing
file skips the read, and the try/except around open and json.load turns
every read or parse exception into a fresh default state.  The function
is total: no error value escapes. -/
def _load (fs : FileState) : FeedbackState :=
  match fs with
  | .absent => DEFAULT_FEEDBACK
  | .readFailure => DEFAULT_FEEDBACK
  | .parseFailure => DEFAULT_FEEDBACK
  | .content raw => applyDefaults raw

/-- The bare file write inside _save, which may raise. -/
def attemptWrite (ws : WriteState) : Except Unit Unit :=
  match ws with
  | .writable => Except.ok ()
  | .failing => Except.error ()

/-- Embedding of _save in rag_agent/feedback.py, lines 31-36: the
try/except pass swallows any write exception, so _save is total and
returns unit whatever the write outcome was. -/
def _save (ws : WriteState) : Unit :=
  match attemptWrite ws with
  | .ok _ => ()
  | .error _ => ()

/-- Embedding of the full record_feedback call in rag_agent/feedback.py:
load the persisted state, apply the pure update, best-effort save, and
return the updated state.  The Except layer records whether any exception
escapes to the caller; since _load and _save are total, the result is
always ok. -/
def record_feedback_run (fs : FileState) (ws : WriteState) (thumbs_up : Bool)
    (used_doc_ids : List String) (notes : String) : Except Unit FeedbackState :=
  let data := record_feedback thumbs_up used_doc_ids notes (_load fs)
  let _ := _save ws
  Except.ok data

/-- Document record of rag_agent/retriever.py. -/
structure Doc where
  id : String
  title : String
  year : ℤ
  court : String
  level_weight : ℚ
  tags : List String
  text : String
deriving DecidableEq

/-- The fixed issue-tag trigger table of Retriever._issue_keywords,
lines 34-49 of rag_agent/retriever.py, in source order. -/
def mapping : List (String × List String) :=
  [("privacy", ["privacy", "article 21", "fundamental right", "data protection", "personal data"]),
   ("proportionality", ["proportionality", "least restrictive", "necessity", "balancing"]),
   ("biometric", ["biometric", "aadhaar", "fingerprint", "iris", "face recognition", "facial recognition"]),
   ("safeguards", ["safeguards", "oversight", "data protection", "audit", "breach"]),
   ("legality", ["statute", "law", "legality", "ultra vires", "backed by law"]),
   ("religion", ["article 25", "religion", "religious", "hijab", "turban", "kirpan", "faith", "worship"]),
   ("expression", ["article 19(1)(a)", "freedom of speech", "expression", "symbolic", "dress", "slogan"]),
   ("equality", ["article 14", "equality", "equal", "discrimination", "arbitrary"]),
   ("trade", ["article 19(1)(g)", "trade", "business", "commerce", "e-commerce"]),
   ("assembly", ["article 19(1)(b)", "protest", "assembly", "demonstration"]),
   ("internet", ["internet", "shutdown", "broadband", "telecom"]),
   ("localization", ["localization", "data localization", "cross-border", "data transfer"]),
   ("surveillance", ["surveillance", "cctv", "public safety", "tracking"])]

/-- Embedding of Retriever._issue_keywords: a tag fires when any of its
trigger phrases occurs in the lower-cased text; the matched tag names are
returned sorted.  The dict keys are pairwise distinct, so the set() in
sorted(set(kws)) of the source is a no-op beyond sorting. -/
def _issue_keywords (text : String) : List String :=
  let text_l := pyLower text
  sortStrings ((mapping.filter (fun p => p.2.any (fun v => substrOf v text_l))).map (fun p => p.1))

/-- Embedding of Retriever._issue_overlap: Jaccard-style overlap of the
document tags with the query issue tags, 0 for an empty tag list. -/
def _issue_overlap (tags kws : List String) : ℚ :=
  if kws = [] then 0
  else ((tags.toFinset ∩ kws.toFinset).card : ℚ) / (kws.toFinset.card : ℚ)

/-- Embedding of Retriever._recency: linear decay from 1 to 0 over twenty
years before the current year, with the source default 2025. -/
def _recency (year : ℤ) (current_year : ℤ := 2025) : ℚ :=
  let age : ℤ := max 0 (current_year - year)
  max 0 (1 - (age : ℚ) / 20)

/-- Embedding of Retriever._precedent_score, lines 65-69: weighted base
score plus the stored feedback boost for the document id, with no
clipping applied at this stage. -/
def _precedent_score (sim : ℚ) (doc : Doc) (kws : List String)
    (boosts : List (String × ℚ)) : ℚ :=
  let base := (55/100) * sim + (15/100) * _recency doc.year
    + (2/10) * doc.level_weight + (1/10) * _issue_overlap doc.tags kws
  base + dictGet boosts doc.id

/-- One entry of the list returned by Retriever.retrieve: the combined
score together with the document fields. -/
structure RankedResult where
  score : ℚ
  doc : Doc
deriving DecidableEq

/-- Selection order used by retrieve on the similarity array: higher
similarity first.  The numpy argpartition plus argsort pipeline orders by
similarity and breaks ties in an implementation-defined but deterministic
way; the embedding fixes the tie-break to original document order. -/
def rankRel (a b : ℕ × Doc × ℚ) : Prop :=
  b.2.2 < a.2.2 ∨ (a.2.2 = b.2.2 ∧ a.1 ≤ b.1)

instance : DecidableRel rankRel := fun a b => by
  unfold rankRel
  infer_instance

instance : IsTotal (ℕ × Doc × ℚ) rankRel := by
  constructor
  intro a b
  rcases lt_trichotomy a.2.2 b.2.2 with h | h | h
  · exact Or.inr (Or.inl h)
  · rcases Nat.le_total a.1 b.1 with hn | hn
    · exact Or.inl (Or.inr ⟨h, hn⟩)
    · exact Or.inr (Or.inr ⟨h.symm, hn⟩)
  · exact Or.inl (Or.inl h)

instance : IsTrans (ℕ × Doc × ℚ) rankRel := by
  constructor
  intro a b c hab hbc
  rcases hab with hab | ⟨hab, hab2⟩
  · rcases hbc with hbc | ⟨hbc, _⟩
    · exact Or.inl (hbc.trans hab)
    · exact Or.inl (hbc ▸ hab)
  · rcases hbc with hbc | ⟨hbc, hbc2⟩
    · exact Or.inl (hab.symm ▸ hbc)
    · exact Or.inr ⟨hab.trans hbc, hab2.trans hbc2⟩

/-- Index-decorated similarity ranking of retrieve, lines 77-80 of
rag_agent/retriever.py: clamp k to the document count, pick the k
documents of highest similarity, ordered by similarity descending. -/
def rankedEntries (docs : List Doc) (sims : List ℚ) (k : ℕ) : List (ℕ × Doc × ℚ) :=
  (List.insertionSort rankRel (docs.zip sims).enum).take (min k docs.length)

/-- Error message standing for the ValueError that numpy argpartition
raises when the similarity array is empty and kth is -1. -/
def argpartitionErr : String :=
  "np.argpartition: kth(=-1) out of bounds for an empty similarity array"

/-- Embedding of Retriever.retrieve, lines 71-86.  The query determines
the issue keywords; the similarity of each document to the query is the
sims argument (the dot products of line 75).  On an empty corpus the
clamped k is 0, so numpy receives kth = -1 for an empty array and raises;
otherwise the top-k by similarity are decorated with their combined
precedent score. -/
def retrieve (docs : List Doc) (sims : List ℚ) (boosts : List (String × ℚ))
    (query : String) (k : ℕ) : Except String (List RankedResult) :=
  if docs.length = 0 then
    Except.error argpartitionErr
  else
    Except.ok ((rankedEntries docs sims k).map
      (fun e => { score := _precedent_score e.2.2 e.2.1 (_issue_keywords query) boosts,
                  doc := e.2.1 }))

/-- The fixed key-term list shared by evidence_check (line 68 of
rag_agent/agent.py) and the grounding loop of run_agent (line 171). -/
def key_terms : List String :=
  ["privacy", "proportionality", "necessity", "safeguards", "biometric", "article 21"]

/-- Citation label built throughout rag_agent/agent.py from a document:
title followed by the year in parentheses. -/
def cite (d : Doc) : String :=
  d.title ++ " (" ++ toString d.year ++ ")"

/-- The sorted(list(dict.fromkeys(cites))) idiom of rag_agent/agent.py:
de-duplicate keeping first occurrences, then sort. -/
def sortedDedup (l : List String) : List String :=
  sortStrings (dedupFirst l)

/-- Embedding of evidence_check, lines 61-73 of rag_agent/agent.py: a
document yields a citation for a claim only when the lower-cased claim
contains a key term and the lower-cased document text contains a key
term. -/
def evidence_check (claims : List String) (top_docs : List Doc) :
    List (String × List String) :=
  claims.map (fun c =>
    (c, sortedDedup (top_docs.foldl (fun acc d =>
      if (key_terms.any (fun w => substrOf w (pyLower c)))
          && (key_terms.any (fun w => substrOf w (pyLower d.text)))
      then acc ++ [cite d] else acc) [])))

/-- Citation list the run_agent grounding loop computes from the
retrieved documents alone: every document whose lower-cased text contains
a key term, de-duplicated and sorted. -/
def docKeyCites (retrieved : List Doc) : List String :=
  sortedDedup ((retrieved.filter
    (fun d => key_terms.any (fun w => substrOf w (pyLower d.text)))).map cite)

/-- Embedding of the inline grounding loop of run_agent, lines 172-174 of
rag_agent/agent.py.  The comprehension building cites tests only the
document text, never the claim. -/
def run_agent_grounding (claims : List String) (retrieved : List Doc) :
    List (String × List String) :=
  claims.map (fun c =>
    (c, sortedDedup ((retrieved.filter
      (fun d => key_terms.any (fun w => substrOf w (pyLower d.text)))).map cite)))

/-- Embedding of plan_steps, lines 35-58 of rag_agent/agent.py. -/
def plan_steps (issues : List String) : List String :=
  let steps := ["Confirm enabling law (legality) and legitimate aim."]
  let steps := if "proportionality" ∈ issues ∨ "privacy" ∈ issues
      ∨ "biometric" ∈ issues ∨ "surveillance" ∈ issues then
    steps ++ ["Assess suitability to the aim.",
      "Assess necessity (less intrusive means).",
      "Assess balancing and safeguards (purpose, storage, oversight)."]
    else steps
  let steps := if "religion" ∈ issues then
    steps ++ ["Consider Article 25 scope and any 25(2) justifications."] else steps
  let steps := if "expression" ∈ issues then
    steps ++ ["If Article 19(1)(a) is implicated, analyze reasonableness and proportionality."]
    else steps
  let steps := if "trade" ∈ issues then
    steps ++ ["If Article 19(1)(g) is implicated, test reasonableness of restrictions."]
    else steps
  let steps := if "equality" ∈ issues then
    steps ++ ["Check Article 14 arbitrariness and equal protection concerns."] else steps
  let steps := steps ++ ["Draft positions and propose outcome."]
  dedupFirst steps

/-- Risk vocabulary of _verdict_confidence, line 107 of rag_agent/agent.py. -/
def risk_terms : List String :=
  ["blanket", "mandatory", "indefinite", "mass", "facial recognition",
   "biometric", "shutdown", "localization"]

/-- Safeguard vocabulary of _verdict_confidence, line 108 of rag_agent/agent.py. -/
def safe_terms : List String :=
  ["safeguard", "oversight", "exemption", "opt-out", "purpose limitation",
   "data minimization", "sunset"]

/-- Embedding of _verdict_confidence, lines 102-113 of rag_agent/agent.py:
mean of the top-two retrieved scores recentred, nudged by lexical risk and
safeguard signals in the query, clamped to the interval from 0.5 to 0.9. -/
def _verdict_confidence (query : String) (retrieved : List RankedResult) : ℚ :=
  let top := retrieved.take 2
  let s := (top.map (fun r => r.score)).sum / ((max 1 top.length : ℕ) : ℚ)
  let conf := 4/10 + (5/10) * (s - 5/10)
  let q := pyLower query
  let conf := if risk_terms.any (fun t => substrOf t q) then conf + 5/100 else conf
  let conf := if safe_terms.any (fun t => substrOf t q) then conf - 5/100 else conf
  max (5/10) (min (9/10) conf)

/-- Python str.isspace for the ASCII whitespace characters, used to model
the strip() call of _extract_snippet. -/
def isPySpace (c : Char) : Bool :=
  c == ' ' || c == '\t' || c == '\n' || c == '\r' || c == '\x0b' || c == '\x0c'

/-- Python str.strip() on a character list. -/
def pyStrip (cs : List Char) : List Char :=
  ((cs.dropWhile isPySpace).reverse.dropWhile isPySpace).reverse

/-- Python str.find on character lists: index of the first occurrence of
the needle, none when absent (the source compares against -1). -/
def strFind (n : List Char) : List Char → Option ℕ
  | [] => if hasPrefixChars n [] then some 0 else none
  | c :: t => if hasPrefixChars n (c :: t) then some 0 else (strFind n t).map (· + 1)

/-- Embedding of _extract_snippet, lines 140-149 of rag_agent/agent.py:
find the first key term (in key-term order) in the lower-cased text, cut
a window of the given width around it from the original text, strip it,
and mark truncation with ellipses.  Natural subtraction on the start
index coincides with the max(0, i - window//2) of the source. -/
def _extract_snippet (text : String) (kt : List String) (window : ℕ := 140) :
    Option String :=
  let cs := text.toList
  let tl := cs.map Char.toLower
  match kt.findSome? (fun k => strFind k.toList tl) with
  | none => none
  | some i =>
    let start := i - window / 2
    let stop := min cs.length (i + window / 2)
    let snippet := pyStrip ((cs.drop start).take (stop - start))
    some ((if 0 < start then "…" else "") ++ String.mk snippet
      ++ (if stop < cs.length then "…" else ""))

/-- One evidence record of the grounding_snippets output of run_agent. -/
structure Evidence where
  source : String
  snippet : String
deriving DecidableEq

/-- One grounding_snippets record of run_agent. -/
structure SnippetRecord where
  claim : String
  evidence : List Evidence
deriving DecidableEq

/-- Evidence list the snippet loop of run_agent derives from the
retrieved documents alone: first three documents that yield a snippet, in
document order. -/
def evidencesFor (retrieved : List Doc) : List Evidence :=
  (retrieved.filterMap (fun d =>
    (_extract_snippet d.text key_terms).map (fun s => Evidence.mk (cite d) s))).take 3

/-- Embedding of the grounding_snippets loop of run_agent, lines 170-180
of rag_agent/agent.py.  The evidence list is rebuilt inside the claims
loop but never reads the claim. -/
def run_agent_grounding_snippets (claims : List String) (retrieved : List Doc) :
    List SnippetRecord :=
  claims.map (fun c =>
    SnippetRecord.mk c ((retrieved.filterMap (fun d =>
      (_extract_snippet d.text key_terms).map (fun s => Evidence.mk (cite d) s))).take 3))

/-- Concrete corpus document used in the retrieval counterexample and
witnesses: an old low-authority decision. -/
def docOld : Doc :=
  { id := "d1", title := "Old Case", year := 2005, court := "HC",
    level_weight := 0, tags := [], text := "irrelevant" }

/-- Concrete corpus document used in the retrieval counterexample: a
recent apex-court decision. -/
def docNew : Doc :=
  { id := "d2", title := "New Case", year := 2025, court := "SC",
    level_weight := 1, tags := [], text := "irrelevant" }

/-- Concrete privacy precedent used in the grounding counterexample and
witnesses: its text contains the key term privacy. -/
def docP : Doc :=
  { id := "kps", title := "Puttaswamy", year := 2017, court := "SC",
    level_weight := 1, tags := ["privacy"],
    text := "The right to privacy is a fundamental right under Article 21." }

/-- Rounding an integer changes nothing. -/
theorem roundHalfEven_intCast (n : ℤ) : roundHalfEven (n : ℚ) = n := by
  unfold roundHalfEven
  rw [Int.floor_intCast]
  norm_num

/-- Round-half-to-even never overshoots an integer upper bound of its
argument. -/
theorem roundHalfEven_le {q : ℚ} {a : ℤ} (h : q ≤ (a : ℚ)) : roundHalfEven q ≤ a := by
  have hfa : ⌊q⌋ ≤ a := by
    have := Int.floor_le_floor h
    rwa [Int.floor_intCast] at this
  have hfl := Int.floor_le q
  unfold roundHalfEven
  split_ifs with h1 h2 h3
  · exact hfa
  · have hlt : (⌊q⌋ : ℚ) < (a : ℚ) := by linarith
    have : ⌊q⌋ < a := by exact_mod_cast hlt
    omega
  · exact hfa
  · have heq : q - (⌊q⌋ : ℚ) = 1/2 := le_antisymm (not_lt.mp h2) (not_lt.mp h1)
    have hlt : (⌊q⌋ : ℚ) < (a : ℚ) := by linarith
    have : ⌊q⌋ < a := by exact_mod_cast hlt
    omega

/-- Round-half-to-even never undershoots an integer lower bound of its
argument. -/
theorem le_roundHalfEven {q : ℚ} {a : ℤ} (h : (a : ℚ) ≤ q) : a ≤ roundHalfEven q := by
  have hfa : a ≤ ⌊q⌋ := Int.le_floor.mpr h
  unfold roundHalfEven
  split_ifs <;> omega

/-- Values that are already exact multiples of one ten-thousandth are
fixed points of round4. -/
theorem round4_eq_self {q : ℚ} (n : ℤ) (h : q * 10000 = (n : ℚ)) : round4 q = q := by
  unfold round4
  rw [h, roundHalfEven_intCast]
  rw [eq_comm, eq_div_iff (by norm_num : (10000 : ℚ) ≠ 0)]
  linarith

/-- Round4 respects the upper boost bound. -/
theorem round4_le {q : ℚ} (h : q ≤ 1/5) : round4 q ≤ 1/5 := by
  have h1 : q * 10000 ≤ ((2000 : ℤ) : ℚ) := by push_cast; linarith
  have h2 := roundHalfEven_le h1
  have h3 : ((roundHalfEven (q * 10000) : ℤ) : ℚ) ≤ 2000 := by exact_mod_cast h2
  unfold round4
  linarith

/-- Round4 respects the lower boost bound. -/
theorem le_round4 {q : ℚ} (h : -(1/5) ≤ q) : -(1/5) ≤ round4 q := by
  have h1 : ((-2000 : ℤ) : ℚ) ≤ q * 10000 := by push_cast; linarith
  have h2 := le_roundHalfEven h1
  have h3 : (-2000 : ℚ) ≤ ((roundHalfEven (q * 10000) : ℤ) : ℚ) := by exact_mod_cast h2
  unfold round4
  linarith

/-- Clipping to the boost interval and rounding always lands in the boost
interval, whatever the input. -/
theorem clipRound_mem (x : ℚ) :
    -(1/5) ≤ round4 (max (-(1/5)) (min (1/5) x)) ∧
      round4 (max (-(1/5)) (min (1/5) x)) ≤ 1/5 := by
  constructor
  · exact le_round4 (le_max_left _ _)
  · exact round4_le (max_le (by norm_num) (min_le_left _ _))

/-- Updating a key makes lookup of that key return the written value. -/
theorem dictGet_dictSet_self (m : List (String × ℚ)) (k : String) (v : ℚ) :
    dictGet (dictSet m k v) k = v := by
  induction m with
  | nil => simp [dictSet, dictGet]
  | cons p t ih =>
    by_cases h : p.1 = k
    · simp [dictSet, dictGet, h]
    · simp [dictSet, dictGet, h, ih]

/-- A value predicate holding for every entry of a dict and for the
written value holds for every entry after the update. -/
theorem dictSet_forall (P : ℚ → Prop) (k : String) (v : ℚ) (hv : P v) :
    ∀ m : List (String × ℚ), (∀ p ∈ m, P p.2) → ∀ p ∈ dictSet m k v, P p.2 := by
  intro m
  induction m with
  | nil =>
    intro _ p hp
    simp only [dictSet, List.mem_singleton] at hp
    exact hp ▸ hv
  | cons q t ih =>
    intro hm p hp
    by_cases h : q.1 = k
    · simp only [dictSet, if_pos h, List.mem_cons] at hp
      rcases hp with hp | hp
      · exact hp ▸ hv
      · exact hm p (List.mem_cons_of_mem _ hp)
    · simp only [dictSet, if_neg h, List.mem_cons] at hp
      rcases hp with hp | hp
      · exact hp ▸ hm q (List.mem_cons_self _ _)
      · exact ih (fun r hr => hm r (List.mem_cons_of_mem _ hr)) p hp

/-- The boost dict produced by record_feedback is the fold of the clipped
and rounded per-id update over the used ids; the style and notes updates
leave it untouched. -/
theorem record_feedback_doc_boosts (b : Bool) (ids : List String) (notes : String)
    (s : FeedbackState) :
    (record_feedback b ids notes s).doc_boosts
      = ids.foldl (fun m did => dictSet m did (round4 (max (-(1/5)) (min (1/5)
          (dictGet m did + (if b then (1/50 : ℚ) else -(1/50))))))) s.doc_boosts := by
  unfold record_feedback
  cases b <;> by_cases h : notes = "" <;> simp [h]

/-- Style counter update of record_feedback: bullets. -/
theorem record_feedback_style_bullets (b : Bool) (ids : List String) (notes : String)
    (s : FeedbackState) :
    (record_feedback b ids notes s).style_bullets
      = if b then s.style_bullets else min 2 (s.style_bullets + 1) := by
  unfold record_feedback
  cases b <;> by_cases h : notes = "" <;> simp [h]

/-- Style counter update of record_feedback: citations. -/
theorem record_feedback_style_citations (b : Bool) (ids : List String) (notes : String)
    (s : FeedbackState) :
    (record_feedback b ids notes s).style_citations
      = if b then min 2 (s.style_citations + 1) else s.style_citations := by
  unfold record_feedback
  cases b <;> by_cases h : notes = "" <;> simp [h]

/-- Style counter update of record_feedback: proportionality emphasis. -/
theorem record_feedback_emphasis (b : Bool) (ids : List String) (notes : String)
    (s : FeedbackState) :
    (record_feedback b ids notes s).emphasis_proportionality
      = if b then min 2 (s.emphasis_proportionality + 1) else s.emphasis_proportionality := by
  unfold record_feedback
  cases b <;> by_cases h : notes = "" <;> simp [h]

/-- Folding the per-id boost update keeps every stored boost inside the
boost interval. -/
theorem foldl_boosts_bounds (b : Bool) :
    ∀ (ids : List String) (m : List (String × ℚ)),
      (∀ p ∈ m, -(1/5) ≤ p.2 ∧ p.2 ≤ 1/5) →
      ∀ p ∈ ids.foldl (fun m did => dictSet m did (round4 (max (-(1/5)) (min (1/5)
          (dictGet m did + (if b then (1/50 : ℚ) else -(1/50))))))) m,
        -(1/5) ≤ p.2 ∧ p.2 ≤ 1/5 := by
  intro ids
  induction ids with
  | nil => intro m hm; simpa using hm
  | cons d t ih =>
    intro m hm
    simp only [List.foldl_cons]
    exact ih _ (dictSet_forall (fun x => -(1/5) ≤ x ∧ x ≤ 1/5) d _ (clipRound_mem _) m hm)

/-- Single record_feedback call preserves the feedback invariant. -/
theorem record_feedback_inv (b : Bool) (ids : List String) (notes : String)
    (s : FeedbackState) (h : FeedbackInv s) : FeedbackInv (record_feedback b ids notes s) := by
  obtain ⟨hb, h1, h2, h3, h4, h5, h6⟩ := h
  refine ⟨?_, ?_, ?_, ?_, ?_, ?_, ?_⟩
  · rw [record_feedback_doc_boosts]
    exact foldl_boosts_bounds b ids s.doc_boosts hb
  · rw [record_feedback_style_bullets]; split_ifs <;> omega
  · rw [record_feedback_style_bullets]; split_ifs <;> omega
  · rw [record_feedback_style_citations]; split_ifs <;> omega
  · rw [record_feedback_style_citations]; split_ifs <;> omega
  · rw [record_feedback_emphasis]; split_ifs <;> omega
  · rw [record_feedback_emphasis]; split_ifs <;> omega

/-- Unfolding one event of applyEvents. -/
theorem applyEvents_cons (e : Bool × List String) (t : List (Bool × List String))
    (s : FeedbackState) :
    applyEvents (e :: t) s = applyEvents t (record_feedback e.1 e.2 "" s) := by
  simp [applyEvents]

/-- Any event sequence preserves the feedback invariant. -/
theorem applyEvents_inv :
    ∀ (events : List (Bool × List String)) (s : FeedbackState),
      FeedbackInv s → FeedbackInv (applyEvents events s) := by
  intro events
  induction events with
  | nil => intro s h; simpa [applyEvents] using h
  | cons e t ih =>
    intro s h
    rw [applyEvents_cons]
    exact ih _ (record_feedback_inv _ _ _ _ h)

/-- The default feedback state satisfies the invariant. -/
theorem default_feedback_inv : FeedbackInv DEFAULT_FEEDBACK := by
  refine ⟨?_, ?_, ?_, ?_, ?_, ?_, ?_⟩ <;> simp [DEFAULT_FEEDBACK]

/-- A record_feedback call with a single used id moves that boost by one
boostStep; the generic event fold specialises to the scalar recurrence. -/
theorem record_feedback_boost_single (b : Bool) (d : String) (s : FeedbackState) :
    dictGet (record_feedback b [d] "" s).doc_boosts d
      = boostStep (dictGet s.doc_boosts d) b := by
  rw [record_feedback_doc_boosts]
  simp only [List.foldl_cons, List.foldl_nil]
  rw [dictGet_dictSet_self]
  rfl

/-- Folding thumb events that all reference one document id computes the
scalar clipped running sum of that document boost. -/
theorem applyEvents_boost (d : String) :
    ∀ (ups : List Bool) (s : FeedbackState),
      dictGet (applyEvents (ups.map (fun b => (b, [d]))) s).doc_boosts d
        = ups.foldl boostStep (dictGet s.doc_boosts d) := by
  intro ups
  induction ups with
  | nil => intro s; simp [applyEvents]
  | cons b t ih =>
    intro s
    rw [List.map_cons, applyEvents_cons]
    rw [ih, record_feedback_boost_single]
    rfl

/-- The clipped running sum stays inside the boost interval from any
start value in it. -/
theorem foldl_boostStep_mem :
    ∀ (ups : List Bool) (acc : ℚ), -(1/5) ≤ acc → acc ≤ 1/5 →
      -(1/5) ≤ ups.foldl boostStep acc ∧ ups.foldl boostStep acc ≤ 1/5 := by
  intro ups
  induction ups with
  | nil => intro acc h1 h2; exact ⟨h1, h2⟩
  | cons b t ih =>
    intro acc _ _
    simp only [List.foldl_cons]
    exact ih (boostStep acc b) (clipRound_mem _).1 (clipRound_mem _).2

/-- One thumbs-up step on a saturating boost value. -/
theorem boostStep_true_min (N : ℕ) :
    boostStep (min (1/5) ((N : ℚ)/50)) true = min (1/5) (((N : ℚ) + 1)/50) := by
  have hx0 : (0 : ℚ) ≤ min (1/5) ((N : ℚ)/50) := le_min (by norm_num) (by positivity)
  unfold boostStep
  rw [if_pos rfl]
  rw [max_eq_right (le_min (by norm_num) (by linarith))]
  rcases le_or_lt ((N : ℚ)/50) (1/5) with hle | hlt
  · rw [min_eq_right hle]
    rcases le_or_lt (((N : ℚ) + 1)/50) (1/5) with h2 | h2
    · have harg : min (1/5) ((N : ℚ)/50 + 1/50) = ((N : ℚ) + 1)/50 := by
        rw [min_eq_right (by linarith)]
        ring
      rw [harg, min_eq_right h2]
      exact round4_eq_self (200 * ((N : ℤ) + 1)) (by push_cast; ring)
    · have harg : min (1/5) ((N : ℚ)/50 + 1/50) = 1/5 := min_eq_left (by linarith)
      rw [harg, min_eq_left (le_of_lt h2)]
      exact round4_eq_self 2000 (by norm_num)
  · rw [min_eq_left hlt.le]
    have harg : min (1/5) ((1 : ℚ)/5 + 1/50) = 1/5 := min_eq_left (by norm_num)
    rw [harg, min_eq_left (by linarith)]
    exact round4_eq_self 2000 (by norm_num)

/-- A block of N thumbs-up events drives the scalar boost recurrence to
the saturating value. -/
theorem replicate_true_fold (N : ℕ) :
    (List.replicate N true).foldl boostStep 0 = min (1/5) ((N : ℚ)/50) := by
  induction N with
  | zero =>
    simp only [List.replicate_zero, List.foldl_nil, Nat.cast_zero]
    norm_num
  | succ n ih =>
    rw [List.replicate_succ', List.foldl_append, ih]
    simp only [List.foldl_cons, List.foldl_nil]
    rw [boostStep_true_min]
    push_cast
    ring_nf

/-- Claim C3: starting from no stored boost, N consecutive thumbs-up
events referencing a document id leave its boost at
min(0.2, round(0.02 times N, 4)); any mixed thumb sequence leaves it at
the per-step clipped and rounded running sum, which never leaves the
interval from -0.2 to 0.2.  Decimal constants appear as the exact
rationals 1/5 = 0.2 and 1/50 = 0.02. -/
theorem feedback_boost_accumulation :
    (∀ (N : ℕ) (d : String),
       dictGet (applyEvents (List.replicate N (true, [d])) DEFAULT_FEEDBACK).doc_boosts d
         = min (1/5) (round4 ((1/50) * (N : ℚ)))) ∧
    (∀ (ups : List Bool) (d : String),
       dictGet (applyEvents (ups.map (fun b => (b, [d]))) DEFAULT_FEEDBACK).doc_boosts d
         = clippedSum ups
       ∧ -(1/5) ≤ clippedSum ups ∧ clippedSum ups ≤ 1/5) := by
  constructor
  · intro N d
    have hrep : List.replicate N ((true : Bool), [d])
        = (List.replicate N true).map (fun b => (b, [d])) := by
      rw [List.map_replicate]
    rw [hrep, applyEvents_boost]
    have hz : dictGet DEFAULT_FEEDBACK.doc_boosts d = 0 := rfl
    rw [hz, replicate_true_fold]
    have hr : round4 ((1/50) * (N : ℚ)) = (1/50) * (N : ℚ) :=
      round4_eq_self (200 * (N : ℤ)) (by push_cast; ring)
    rw [hr]
    congr 1
    ring
  · intro ups d
    refine ⟨?_, ?_, ?_⟩
    · rw [applyEvents_boost]
      rfl
    · exact (foldl_boostStep_mem ups 0 (by norm_num) (by norm_num)).1
    · exact (foldl_boostStep_mem ups 0 (by norm_num) (by norm_num)).2

/-- Claim C4: every feedback state reachable from the default state by
any sequence of feedback events keeps all stored boosts in the interval
from -0.2 to 0.2 and all style counters between 0 and 2, and one
record_feedback call preserves this invariant from any state satisfying
it. -/
theorem feedback_state_invariant :
    (∀ events : List (Bool × List String),
       FeedbackInv (applyEvents events DEFAULT_FEEDBACK)) ∧
    (∀ (b : Bool) (ids : List String) (notes : String) (s : FeedbackState),
       FeedbackInv s → FeedbackInv (record_feedback b ids notes s)) :=
  ⟨fun events => applyEvents_inv events DEFAULT_FEEDBACK default_feedback_inv,
   record_feedback_inv⟩

/-- Witness for C4 at a concrete state and event. -/
theorem feedback_state_invariant_witness :
    FeedbackInv DEFAULT_FEEDBACK ∧
      FeedbackInv (record_feedback true ["doc1"] "good" DEFAULT_FEEDBACK) :=
  ⟨by decide, feedback_state_invariant.2 true ["doc1"] "good" DEFAULT_FEEDBACK (by decide)⟩

/-- Claim C8: loading substitutes the default state on a missing file, a
read error or a parse failure, without propagating any exception, and a
full record_feedback call returns the updated state with an ok outcome
whatever the write outcome is: a write failure is swallowed. -/
theorem feedback_persistence_error_swallowing :
    (_load FileState.absent = DEFAULT_FEEDBACK) ∧
    (_load FileState.readFailure = DEFAULT_FEEDBACK) ∧
    (_load FileState.parseFailure = DEFAULT_FEEDBACK) ∧
    (∀ (fs : FileState) (ws : WriteState) (b : Bool) (ids : List String) (notes : String),
       record_feedback_run fs ws b ids notes
         = Except.ok (record_feedback b ids notes (_load fs))) :=
  ⟨rfl, rfl, rfl, fun _ _ _ _ _ => rfl⟩

/-- Claim C2: the precedent score of a document is exactly the weighted
sum 0.55 sim + 0.15 recency + 0.20 level weight + 0.10 overlap plus the
stored boost of the document id, with recency the linear twenty-year
decay from the source default current year 2025 and overlap the tag
intersection ratio (0 for an empty issue-tag set); no clipping is applied
to the sum. -/
theorem precedent_score_formula (sim : ℚ) (doc : Doc) (kws : List String)
    (boosts : List (String × ℚ)) :
    _precedent_score sim doc kws boosts
      = (55/100) * sim
        + (15/100) * max 0 (1 - ((max 0 (2025 - doc.year) : ℤ) : ℚ) / 20)
        + (2/10) * doc.level_weight
        + (1/10) * (if kws = [] then 0
            else ((doc.tags.toFinset ∩ kws.toFinset).card : ℚ) / (kws.toFinset.card : ℚ))
        + dictGet boosts doc.id := by
  simp only [_precedent_score, _recency, _issue_overlap]

/-- Claim C7: the verdict confidence always lies in the closed interval
from 0.5 to 0.9, and an empty retrieved list gives exactly 0.5 for every
query. -/
theorem verdict_confidence_range :
    (∀ (query : String) (retrieved : List RankedResult),
       1/2 ≤ _verdict_confidence query retrieved
         ∧ _verdict_confidence query retrieved ≤ 9/10) ∧
    (∀ query : String, _verdict_confidence query [] = 1/2) := by
  constructor
  · intro query retrieved
    unfold _verdict_confidence
    constructor
    · exact le_trans (by norm_num) (le_max_left _ _)
    · exact max_le (by norm_num) ((min_le_left _ _).trans (by norm_num))
  · intro query
    unfold _verdict_confidence
    simp only [List.take_nil, List.map_nil, List.sum_nil, List.length_nil]
    norm_num
    split_ifs <;> norm_num [min_def, max_def]

/-- Length of the ranked selection: k clamped to the corpus size. -/
theorem rankedEntries_length (docs : List Doc) (sims : List ℚ) (k : ℕ)
    (hlen : sims.length = docs.length) :
    (rankedEntries docs sims k).length = min k docs.length := by
  unfold rankedEntries
  rw [List.length_take, (List.perm_insertionSort rankRel _).length_eq,
    List.enum_length, List.length_zip, hlen]
  omega

/-- The ranked selection is ordered by similarity, highest first. -/
theorem rankedEntries_sorted (docs : List Doc) (sims : List ℚ) (k : ℕ) :
    (rankedEntries docs sims k).Pairwise (fun a b => b.2.2 ≤ a.2.2) := by
  have hs : List.Pairwise rankRel (List.insertionSort rankRel (docs.zip sims).enum) :=
    List.sorted_insertionSort rankRel (docs.zip sims).enum
  have ht : List.Pairwise rankRel (rankedEntries docs sims k) :=
    List.Pairwise.sublist (List.take_sublist _ _) hs
  refine ht.imp ?_
  intro a b h
  rcases h with h | ⟨h, _⟩
  · exact h.le
  · exact le_of_eq h.symm

/-- On a non-empty corpus retrieve returns the score-decorated ranked
selection. -/
theorem retrieve_ok (docs : List Doc) (sims : List ℚ) (boosts : List (String × ℚ))
    (query : String) (k : ℕ) (hne : docs ≠ []) :
    retrieve docs sims boosts query k
      = Except.ok ((rankedEntries docs sims k).map
          (fun e => { score := _precedent_score e.2.2 e.2.1 (_issue_keywords query) boosts,
                      doc := e.2.1 })) := by
  unfold retrieve
  rw [if_neg (fun h => hne (List.length_eq_zero.mp h))]

/-- Claim C1, amended: on a non-empty corpus with one similarity per
document, retrieve returns min(k, corpus size) results, namely the
score-decorated ranked selection, and that selection is ordered by raw
cosine similarity non-increasing with ties broken by document position.
The attached combined score is computed after the similarity ordering and
does not drive it. -/
theorem retrieve_sorted_by_similarity (docs : List Doc) (sims : List ℚ)
    (boosts : List (String × ℚ)) (query : String) (k : ℕ)
    (hlen : sims.length = docs.length) (hne : docs ≠ []) :
    ∃ l, retrieve docs sims boosts query k = Except.ok l
      ∧ l.length = min k docs.length
      ∧ l = (rankedEntries docs sims k).map
          (fun e => { score := _precedent_score e.2.2 e.2.1 (_issue_keywords query) boosts,
                      doc := e.2.1 })
      ∧ (rankedEntries docs sims k).Pairwise (fun a b => b.2.2 ≤ a.2.2) := by
  refine ⟨_, retrieve_ok docs sims boosts query k hne, ?_, rfl,
    rankedEntries_sorted docs sims k⟩
  rw [List.length_map]
  exact rankedEntries_length docs sims k hlen

/-- Witness for the amended C1 on a one-document corpus. -/
theorem retrieve_sorted_by_similarity_witness :
    ∃ l, retrieve [docOld] [1] [] "" 1 = Except.ok l
      ∧ l.length = min 1 [docOld].length
      ∧ l = (rankedEntries [docOld] [1] 1).map
          (fun e => { score := _precedent_score e.2.2 e.2.1 (_issue_keywords "") [],
                      doc := e.2.1 })
      ∧ (rankedEntries [docOld] [1] 1).Pairwise (fun a b => b.2.2 ≤ a.2.2) :=
  retrieve_sorted_by_similarity [docOld] [1] [] "" 1 (by decide) (by decide)

/-- Recency of the old concrete document is fully decayed. -/
theorem recency_docOld : _recency 2005 = 0 := by
  unfold _recency
  norm_num [max_def]

/-- Recency of the new concrete document is maximal. -/
theorem recency_docNew : _recency 2025 = 1 := by
  unfold _recency
  norm_num [max_def]

/-- Combined score of the old document at similarity 0.9 with no boost. -/
theorem score_docOld : _precedent_score (9/10) docOld [] [] = 99/200 := by
  simp only [_precedent_score, docOld, recency_docOld, _issue_overlap, dictGet]
  norm_num

/-- Combined score of the new document at similarity 0.8 with no boost. -/
theorem score_docNew : _precedent_score (8/10) docNew [] [] = 79/100 := by
  simp only [_precedent_score, docNew, recency_docNew, _issue_overlap, dictGet]
  norm_num

/-- Ranked selection of the two concrete documents keeps similarity
order: the old document has the larger similarity and comes first. -/
theorem rankedEntries_two_docs :
    rankedEntries [docOld, docNew] [9/10, 8/10] 2
      = [(0, docOld, (9:ℚ)/10), (1, docNew, (8:ℚ)/10)] := by
  unfold rankedEntries
  have he : (([docOld, docNew].zip [(9:ℚ)/10, (8:ℚ)/10]).enum)
      = [(0, docOld, (9:ℚ)/10), (1, docNew, (8:ℚ)/10)] := rfl
  rw [he]
  simp only [List.insertionSort, List.orderedInsert]
  rw [if_pos (show rankRel (0, docOld, (9:ℚ)/10) (1, docNew, (8:ℚ)/10)
    from Or.inl (by norm_num))]
  rfl

/-- Counterexample to claim C1 as stated: a concrete two-document corpus
where retrieve succeeds yet the attached combined scores are strictly
increasing, because the second document gains recency and authority
weight that the similarity-only ordering ignores. -/
theorem retrieve_score_order_violation :
    retrieve [docOld, docNew] [9/10, 8/10] [] "" 2
      = Except.ok [{ score := 99/200, doc := docOld }, { score := 79/100, doc := docNew }]
      ∧ (99/200 : ℚ) < 79/100 := by
  refine ⟨?_, by norm_num⟩
  rw [retrieve_ok _ _ _ _ _ (by decide), rankedEntries_two_docs]
  have hkws : _issue_keywords "" = [] := by decide
  simp only [List.map_cons, List.map_nil, hkws, score_docOld, score_docNew]

/-- Claim C9, amended: on a non-empty corpus, asking for at least as many
results as there are documents returns every document exactly once, with
no error.  On the empty corpus retrieve fails instead, see the
counterexample. -/
theorem retrieve_returns_all (docs : List Doc) (sims : List ℚ)
    (boosts : List (String × ℚ)) (query : String) (k : ℕ)
    (hlen : sims.length = docs.length) (hne : docs ≠ []) (hk : docs.length ≤ k) :
    ∃ l, retrieve docs sims boosts query k = Except.ok l
      ∧ l.length = docs.length
      ∧ List.Perm (l.map (fun r => r.doc)) docs := by
  refine ⟨_, retrieve_ok docs sims boosts query k hne, ?_, ?_⟩
  · rw [List.length_map, rankedEntries_length docs sims k hlen]
    omega
  · have h1 : rankedEntries docs sims k = List.insertionSort rankRel (docs.zip sims).enum := by
      unfold rankedEntries
      apply List.take_of_length_le
      rw [(List.perm_insertionSort rankRel _).length_eq, List.enum_length,
        List.length_zip, hlen]
      omega
    rw [h1, List.map_map]
    have h2 : ((fun r : RankedResult => r.doc) ∘ fun e : ℕ × Doc × ℚ =>
        ({ score := _precedent_score e.2.2 e.2.1 (_issue_keywords query) boosts,
           doc := e.2.1 } : RankedResult))
        = fun e : ℕ × Doc × ℚ => e.2.1 := rfl
    rw [h2]
    refine ((List.perm_insertionSort rankRel (docs.zip sims).enum).map
      (fun e : ℕ × Doc × ℚ => e.2.1)).trans ?_
    have h4 : List.map (fun e : ℕ × Doc × ℚ => e.2.1) (docs.zip sims).enum = docs := by
      rw [show (fun e : ℕ × Doc × ℚ => e.2.1) = (Prod.fst ∘ Prod.snd : ℕ × Doc × ℚ → Doc)
          from rfl,
        ← List.map_map, List.enum_map_snd, List.map_fst_zip _ _ (le_of_eq hlen.symm)]
    rw [h4]

/-- Witness for the amended C9 on a one-document corpus with k = 3. -/
theorem retrieve_returns_all_witness :
    ∃ l, retrieve [docOld] [1] [] "q" 3 = Except.ok l
      ∧ l.length = [docOld].length
      ∧ List.Perm (l.map (fun r => r.doc)) [docOld] :=
  retrieve_returns_all [docOld] [1] [] "q" 3 (by decide) (by decide) (by decide)

/-- Counterexample to claim C9 as stated: on the empty corpus retrieve
raises instead of returning the empty result, because the clamped k is 0
and numpy argpartition receives kth = -1 for an empty array. -/
theorem retrieve_empty_corpus_errors :
    retrieve [] [] [] "privacy query" 5 = Except.error argpartitionErr := rfl

/-- When the claim contains no key term, the citation fold of
evidence_check never appends anything. -/
theorem evidence_foldl_no_claim_term (c : String)
    (hterm : key_terms.any (fun w => substrOf w (pyLower c)) = false) :
    ∀ (docs : List Doc) (acc : List String),
      docs.foldl (fun acc d =>
        if (key_terms.any (fun w => substrOf w (pyLower c)))
            && (key_terms.any (fun w => substrOf w (pyLower d.text)))
        then acc ++ [cite d] else acc) acc = acc := by
  intro docs
  induction docs with
  | nil => intro acc; rfl
  | cons d t ih =>
    intro acc
    rw [List.foldl_cons, ih]
    simp [hterm]

/-- Claim C5, amended: evidence_check assigns no citations to a claim
whose lower-cased text contains no key term, but the inline grounding of
run_agent attaches to every claim the same document-derived citation
list, independent of the claim text, so a key-term-free claim still
receives citations there whenever some retrieved document contains a key
term (see the counterexample). -/
theorem grounding_no_key_term (claims : List String) (docs : List Doc)
    (p q : String × List String)
    (hp : p ∈ evidence_check claims docs)
    (hterm : key_terms.any (fun w => substrOf w (pyLower p.1)) = false)
    (hq : q ∈ run_agent_grounding claims docs) :
    p.2 = [] ∧ q.2 = docKeyCites docs := by
  constructor
  · rcases List.mem_map.mp hp with ⟨c, _, hrec⟩
    subst hrec
    simp only at hterm ⊢
    rw [evidence_foldl_no_claim_term c hterm docs []]
    rfl
  · rcases List.mem_map.mp hq with ⟨c, _, hrec⟩
    subst hrec
    rfl

/-- Witness for the amended C5 on a concrete key-term-free claim. -/
theorem grounding_no_key_term_witness :
    ("Courts demand reasons.", ([] : List String)).2 = []
      ∧ ("Courts demand reasons.", ([] : List String)).2 = docKeyCites [] :=
  grounding_no_key_term ["Courts demand reasons."] []
    ("Courts demand reasons.", []) ("Courts demand reasons.", [])
    (by decide) (by decide) (by decide)

/-- Counterexample to claim C5 as stated: the fourth probe claim of
run_agent contains none of the key terms, yet the orchestration grounding
path cites the privacy precedent for it, because that path only tests the
document text. -/
theorem run_agent_grounding_cites_keyless_claim :
    key_terms.any (fun w =>
        substrOf w (pyLower "Legality requires clear statutory backing and oversight."))
      = false
    ∧ run_agent_grounding
        ["Legality requires clear statutory backing and oversight."] [docP]
      = [("Legality requires clear statutory backing and oversight.",
          ["Puttaswamy (2017)"])] := by
  decide

/-- Claim C6, amended: whenever the issue tags contain privacy and
biometric, the plan starts with the fixed legality and aim step, ends
with the fixed draft and outcome step, contains the three proportionality
sub-steps of the source (suitability, necessity, balancing and
safeguards), and has no duplicate step text. -/
theorem plan_steps_privacy_biometric (issues : List String)
    (hp : "privacy" ∈ issues) (hb : "biometric" ∈ issues) :
    (plan_steps issues).head?
        = some "Confirm enabling law (legality) and legitimate aim."
    ∧ (plan_steps issues).getLast? = some "Draft positions and propose outcome."
    ∧ "Assess suitability to the aim." ∈ plan_steps issues
    ∧ "Assess necessity (less intrusive means)." ∈ plan_steps issues
    ∧ "Assess balancing and safeguards (purpose, storage, oversight)." ∈ plan_steps issues
    ∧ (plan_steps issues).Nodup := by
  have _hb := hb
  by_cases h1 : "religion" ∈ issues <;> by_cases h2 : "expression" ∈ issues <;>
    by_cases h3 : "trade" ∈ issues <;> by_cases h4 : "equality" ∈ issues <;>
      simp only [plan_steps, hp, h1, h2, h3, h4] <;>
        norm_num <;> decide

/-- Witness for the amended C6 at the concrete tag list. -/
theorem plan_steps_privacy_biometric_witness :
    (plan_steps ["privacy", "biometric"]).head?
        = some "Confirm enabling law (legality) and legitimate aim."
    ∧ (plan_steps ["privacy", "biometric"]).getLast?
        = some "Draft positions and propose outcome."
    ∧ "Assess suitability to the aim." ∈ plan_steps ["privacy", "biometric"]
    ∧ "Assess necessity (less intrusive means)." ∈ plan_steps ["privacy", "biometric"]
    ∧ "Assess balancing and safeguards (purpose, storage, oversight)."
        ∈ plan_steps ["privacy", "biometric"]
    ∧ (plan_steps ["privacy", "biometric"]).Nodup :=
  plan_steps_privacy_biometric ["privacy", "biometric"] (by decide) (by decide)

/-- Counterexample to claim C6 as stated: the plan for the tags privacy
and biometric has no four pairwise distinct steps besides the fixed first
and last steps; the source adds only three proportionality sub-steps. -/
theorem plan_steps_lacks_fourth_substep :
    ¬ ∃ a b c d : String,
        a ≠ b ∧ a ≠ c ∧ a ≠ d ∧ b ≠ c ∧ b ≠ d ∧ c ≠ d ∧
        a ∈ plan_steps ["privacy", "biometric"] ∧
        b ∈ plan_steps ["privacy", "biometric"] ∧
        c ∈ plan_steps ["privacy", "biometric"] ∧
        d ∈ plan_steps ["privacy", "biometric"] ∧
        a ≠ "Confirm enabling law (legality) and legitimate aim." ∧
        a ≠ "Draft positions and propose outcome." ∧
        b ≠ "Confirm enabling law (legality) and legitimate aim." ∧
        b ≠ "Draft positions and propose outcome." ∧
        c ≠ "Confirm enabling law (legality) and legitimate aim." ∧
        c ≠ "Draft positions and propose outcome." ∧
        d ≠ "Confirm enabling law (legality) and legitimate aim." ∧
        d ≠ "Draft positions and propose outcome." := by
  have hplan : plan_steps ["privacy", "biometric"]
      = ["Confirm enabling law (legality) and legitimate aim.",
         "Assess suitability to the aim.",
         "Assess necessity (less intrusive means).",
         "Assess balancing and safeguards (purpose, storage, oversight).",
         "Draft positions and propose outcome."] := by decide
  rintro ⟨a, b, c, d, hab, hac, had, hbc, hbd, hcd, ha, hb, hc, hd,
    ha1, ha2, hb1, hb2, hc1, hc2, hd1, hd2⟩
  have key : ∀ x : String, x ∈ plan_steps ["privacy", "biometric"] →
      x ≠ "Confirm enabling law (legality) and legitimate aim." →
      x ≠ "Draft positions and propose outcome." →
      x ∈ ["Assess suitability to the aim.",
           "Assess necessity (less intrusive means).",
           "Assess balancing and safeguards (purpose, storage, oversight)."] := by
    intro x hx hx1 hx2
    rw [hplan] at hx
    simp only [List.mem_cons, List.not_mem_nil, or_false] at hx
    rcases hx with rfl | rfl | rfl | rfl | rfl
    · exact absurd rfl hx1
    · simp
    · simp
    · simp
    · exact absurd rfl hx2
  have hsub : ([a, b, c, d] : List String)
      ⊆ ["Assess suitability to the aim.",
         "Assess necessity (less intrusive means).",
         "Assess balancing and safeguards (purpose, storage, oversight)."] := by
    intro x hx
    simp only [List.mem_cons, List.not_mem_nil, or_false] at hx
    rcases hx with rfl | rfl | rfl | rfl
    · exact key x ha ha1 ha2
    · exact key x hb hb1 hb2
    · exact key x hc hc1 hc2
    · exact key x hd hd1 hd2
  have hnd : ([a, b, c, d] : List String).Nodup := by
    simp [List.nodup_cons, hab, hac, had, hbc, hbd, hcd]
  have h1 : ([a, b, c, d] : List String).toFinset.card
      = ([a, b, c, d] : List String).length :=
    List.toFinset_card_of_nodup hnd
  have h2 : ([a, b, c, d] : List String).toFinset
      ⊆ (["Assess suitability to the aim.",
          "Assess necessity (less intrusive means).",
          "Assess balancing and safeguards (purpose, storage, oversight)."] :
            List String).toFinset := by
    intro x hx
    rw [List.mem_toFinset] at hx ⊢
    exact hsub hx
  have h3 := Finset.card_le_card h2
  have h4 := List.toFinset_card_le
    (["Assess suitability to the aim.",
      "Assess necessity (less intrusive means).",
      "Assess balancing and safeguards (purpose, storage, oversight)."] : List String)
  simp only [List.length_cons, List.length_nil] at h1 h3 h4
  omega

/-- The sources of the retained evidence snippets form a sublist of the
citation labels of the retrieved documents, so the evidence respects
document order. -/
theorem evidences_sources_sublist (retrieved : List Doc) :
    List.Sublist ((evidencesFor retrieved).map Evidence.source) (retrieved.map cite) := by
  unfold evidencesFor
  refine List.Sublist.trans (List.Sublist.map _ (List.take_sublist _ _)) ?_
  induction retrieved with
  | nil => simp
  | cons d t ih =>
    cases hd : _extract_snippet d.text key_terms with
    | none =>
      have hfd : (_extract_snippet d.text key_terms).map
          (fun s => Evidence.mk (cite d) s) = none := by rw [hd]; rfl
      rw [List.map_cons, List.filterMap_cons, hfd]
      exact ih.cons (cite d)
    | some s =>
      have hfd : (_extract_snippet d.text key_terms).map
          (fun s => Evidence.mk (cite d) s) = some (Evidence.mk (cite d) s) := by
        rw [hd]; rfl
      rw [List.map_cons, List.filterMap_cons, hfd]
      simp only [List.map_cons]
      exact ih.cons₂ (cite d)

/-- Claim C10: within one run_agent request every grounding snippet
record carries the same evidence list, a function of the retrieved
documents and the fixed key terms only; it has at most three entries and
follows document order. -/
theorem grounding_snippets_claim_independent (claims : List String)
    (retrieved : List Doc) (r1 r2 : SnippetRecord)
    (h1 : r1 ∈ run_agent_grounding_snippets claims retrieved)
    (h2 : r2 ∈ run_agent_grounding_snippets claims retrieved) :
    r1.evidence = r2.evidence
    ∧ r1.evidence = evidencesFor retrieved
    ∧ r1.evidence.length ≤ 3
    ∧ List.Sublist (r1.evidence.map Evidence.source) (retrieved.map cite) := by
  have key : ∀ r ∈ run_agent_grounding_snippets claims retrieved,
      r.evidence = evidencesFor retrieved := by
    intro r hr
    rcases List.mem_map.mp hr with ⟨c, _, hrec⟩
    subst hrec
    rfl
  have k1 := key r1 h1
  have k2 := key r2 h2
  refine ⟨k1.trans k2.symm, k1, ?_, ?_⟩
  · rw [k1]
    unfold evidencesFor
    rw [List.length_take]
    omega
  · rw [k1]
    exact evidences_sources_sublist retrieved

/-- Witness for C10 on two concrete probe claims and the concrete privacy
precedent. -/
theorem grounding_snippets_claim_independent_witness :
    (SnippetRecord.mk "Privacy is a fundamental right under Article 21."
        [Evidence.mk "Puttaswamy (2017)"
          "The right to privacy is a fundamental right under Article 21."]).evidence
      = (SnippetRecord.mk "Any limitation must satisfy proportionality including necessity."
        [Evidence.mk "Puttaswamy (2017)"
          "The right to privacy is a fundamental right under Article 21."]).evidence
    ∧ (SnippetRecord.mk "Privacy is a fundamental right under Article 21."
        [Evidence.mk "Puttaswamy (2017)"
          "The right to privacy is a fundamental right under Article 21."]).evidence
      = evidencesFor [docP]
    ∧ (SnippetRecord.mk "Privacy is a fundamental right under Article 21."
        [Evidence.mk "Puttaswamy (2017)"
          "The right to privacy is a fundamental right under Article 21."]).evidence.length ≤ 3
    ∧ List.Sublist
        ((SnippetRecord.mk "Privacy is a fundamental right under Article 21."
          [Evidence.mk "Puttaswamy (2017)"
            "The right to privacy is a fundamental right under Article 21."]).evidence.map
          Evidence.source)
        ([docP].map cite) :=
  grounding_snippets_claim_independent
    ["Privacy is a fundamental right under Article 21.",
     "Any limitation must satisfy proportionality including necessity."]
    [docP]
    (SnippetRecord.mk "Privacy is a fundamental right under Article 21."
      [Evidence.mk "Puttaswamy (2017)"
        "The right to privacy is a fundamental right under Article 21."])
    (SnippetRecord.mk "Any limitation must satisfy proportionality including necessity."
      [Evidence.mk "Puttaswamy (2017)"
        "The right to privacy is a fundamental right under Article 21."])
    (by decide) (by decide)
